import Mathlib

/-
Verification of the inkwell type layer (src/types.rs): a safety wrapper over
the foreign LLVM C ABI. The wrapper code under src/ is translated directly;
the foreign engine itself is not part of the repository, so its operations are
modelled from the spec (sections 3, 6 and 7): the engine interns type objects
(identity of referents coincides with structural equality of the interned
description), minting calls return non-null handles, the struct-field lookup
signals absence by a null handle, and parameter retrieval writes into a
caller-allocated buffer sized by the count query. Rust panics (the assert! in
the checked constructors) are modelled by an Option result whose none case is
the fatal outcome: no usable wrapper is produced.
-/

/-- Modelled from the spec: the process-global foreign context, the context in
which the context-free minting entry points (LLVMInt1Type, LLVMInt8Type, ...)
intern their types. -/
def globalContext : Nat := 0

/-- Modelled from the spec: the structural description of a foreign engine
type object. Because the engine interns types per context (spec section 3,
singleton semantics), identity of underlying referents coincides with equality
of this description; the address-level model below makes the interning
explicit. Only the type kinds the repository's operations reach are included. -/
inductive TypeObj where
  | int (ctx : Nat) (bits : Nat)
  | ptr (elem : TypeObj) (addressSpace : Nat)
  | arr (elem : TypeObj) (size : Nat)
  | fn (ret : TypeObj) (params : List TypeObj) (varArg : Bool)
  | strct (ctx : Nat) (fields : List TypeObj)

/-- Modelled from the spec: a nullable foreign type handle (LLVMTypeRef);
none is the null handle. -/
abbrev LLVMTypeRef := Option TypeObj

/-- Modelled from the spec: the structural description of a foreign engine
constant value; only the integer-constant minting the claims exercise is
modelled. -/
inductive ValueObj where
  | constInt (ty : TypeObj) (value : Nat)

/-- Modelled from the spec: a nullable foreign value handle (LLVMValueRef). -/
abbrev LLVMValueRef := Option ValueObj

/-- Modelled from the spec: the context the engine attributes to a type
(spec section 2: every derived type traces an ownership edge back to the
context that interned its component types). -/
def TypeObj.ctxOf : TypeObj → Nat
  | .int c _ => c
  | .ptr e _ => e.ctxOf
  | .arr e _ => e.ctxOf
  | .fn r _ _ => r.ctxOf
  | .strct c _ => c

mutual

/-- Modelled from the spec: structural equality of engine type descriptions,
which under interning is identity of the referents. -/
def TypeObj.beq : TypeObj → TypeObj → Bool
  | .int c b, .int c' b' => c == c' && b == b'
  | .ptr e a, .ptr e' a' => TypeObj.beq e e' && a == a'
  | .arr e s, .arr e' s' => TypeObj.beq e e' && s == s'
  | .fn r ps v, .fn r' ps' v' => TypeObj.beq r r' && TypeObj.beqList ps ps' && v == v'
  | .strct c fs, .strct c' fs' => c == c' && TypeObj.beqList fs fs'
  | _, _ => false

/-- Pointwise structural equality of two lists of type descriptions. -/
def TypeObj.beqList : List TypeObj → List TypeObj → Bool
  | [], [] => true
  | t :: ts, u :: us => TypeObj.beq t u && TypeObj.beqList ts us
  | _, _ => false

end

mutual

/-- Modelled from the spec: the engine's sized predicate. Integers and
pointers are sized, function types are not, an array is sized exactly when its
element type is, a struct when all its fields are. -/
def TypeObj.isSized : TypeObj → Bool
  | .int _ _ => true
  | .ptr _ _ => true
  | .arr e _ => e.isSized
  | .fn _ _ _ => false
  | .strct _ fields => TypeObj.allSized fields

/-- Every type of the list is sized. -/
def TypeObj.allSized : List TypeObj → Bool
  | [] => true
  | t :: ts => t.isSized && TypeObj.allSized ts

end

/-- Modelled from the spec: pointer-to minting always returns a non-null
handle to the interned pointer type. -/
def LLVMPointerType (ty : TypeObj) (address_space : Nat) : LLVMTypeRef :=
  some (.ptr ty address_space)

/-- Modelled from the spec: array-of minting; size 0 is legal in the domain. -/
def LLVMArrayType (ty : TypeObj) (size : Nat) : LLVMTypeRef :=
  some (.arr ty size)

/-- Modelled from the spec: function-of minting. The C ABI takes a pointer
plus an element count, so the engine reads exactly param_count entries of the
buffer, and a C int variadic flag, nonzero meaning variadic. -/
def LLVMFunctionType (return_type : TypeObj) (param_types : List TypeObj)
    (param_count : Nat) (is_var_arg : Nat) : LLVMTypeRef :=
  some (.fn return_type (param_types.take param_count) (is_var_arg != 0))

/-- Modelled from the spec: struct-field-at-index lookup signals an
out-of-range index or a non-aggregate receiver by a null result rather than a
distinct error code. -/
def LLVMStructGetTypeAtIndex (ty : TypeObj) (index : Nat) : LLVMTypeRef :=
  match ty with
  | .strct _ fields => fields[index]?
  | _ => none

/-- Modelled from the spec: owning-context retrieval; the engine always
attributes a context, even to types built without an explicit one. -/
def LLVMGetTypeContext (ty : TypeObj) : Nat := ty.ctxOf

/-- Modelled from the spec: the sized predicate at the ABI, a C boolean. -/
def LLVMTypeIsSized (ty : TypeObj) : Nat := if ty.isSized then 1 else 0

/-- Modelled from the spec: variadic-flag query, a C boolean. -/
def LLVMIsFunctionVarArg (ty : TypeObj) : Nat :=
  match ty with
  | .fn _ _ v => if v then 1 else 0
  | _ => 0

/-- Modelled from the spec: function parameter count query. -/
def LLVMCountParamTypes (ty : TypeObj) : Nat :=
  match ty with
  | .fn _ ps _ => ps.length
  | _ => 0

/-- Modelled from the spec: parameter sequence retrieval writes the parameter
types into a caller-allocated buffer sized by the count query (spec section
6). The buffer argument is some allocation, or none for a pointer that refers
to no allocation; a write through such a pointer has no defined result, so the
model returns none, and otherwise the buffer's defined contents after the
call. -/
def LLVMGetParamTypes (ty : TypeObj) (dest : Option (List TypeObj)) :
    Option (List TypeObj) :=
  match dest with
  | none => none
  | some _ =>
    match ty with
    | .fn _ ps _ => some ps
    | _ => some []

def LLVMInt1Type : LLVMTypeRef := some (.int globalContext 1)

def LLVMInt8Type : LLVMTypeRef := some (.int globalContext 8)

def LLVMInt16Type : LLVMTypeRef := some (.int globalContext 16)

def LLVMInt32Type : LLVMTypeRef := some (.int globalContext 32)

def LLVMInt64Type : LLVMTypeRef := some (.int globalContext 64)

/-- Modelled from the spec: arbitrary-width integer type minting in the
process-global context. -/
def LLVMIntType (num_bits : Nat) : LLVMTypeRef :=
  some (.int globalContext num_bits)

/-- Modelled from the spec: the engine's deterministic rule for storing a
64-bit input into an integer constant of the type's width: truncation to the
bit width when the width is at most 64; for wider types the sign-extend flag
selects sign- or zero-extension of the 64-bit input. -/
def storedIntValue (bits : Nat) (value : Nat) (signExtend : Bool) : Nat :=
  let v := value % 2 ^ 64
  if bits ≤ 64 then v % 2 ^ bits
  else if signExtend && decide (2 ^ 63 ≤ v) then v + (2 ^ bits - 2 ^ 64)
  else v

/-- Modelled from the spec: integer-constant minting from a type handle, a
64-bit value and a C int sign-extend flag; defined on integer types, where it
returns a non-null handle to the constant holding the stored (truncated)
value. On a non-integer type the engine's behavior is a caller-contract
violation inherited unchanged, modelled as the absence of a defined result. -/
def LLVMConstInt (ty : TypeObj) (value : Nat) (sign_extend : Nat) : LLVMValueRef :=
  match ty with
  | .int c bits => some (.constInt (.int c bits) (storedIntValue bits value (sign_extend != 0)))
  | _ => none

/-- The wrapper over one foreign type handle (src/types.rs, struct Type; named
Ty here because Type is reserved in Lean). Its single field is the handle,
held non-null by construction. -/
structure Ty where
  type_ : TypeObj

/-- Type::new (src/types.rs lines 19-25): asserts the handle is non-null and
wraps it. The assert! panic on a null handle is modelled as none: no usable
wrapper is produced. -/
def Ty.new (type_ : LLVMTypeRef) : Option Ty :=
  match type_ with
  | none => none
  | some t => some ⟨t⟩

/-- The wrapper over one foreign function-type handle (src/types.rs, struct
FunctionType). -/
structure FunctionType where
  fn_type : TypeObj

/-- FunctionType::new (src/types.rs lines 191-197): asserts non-null, wraps. -/
def FunctionType.new (fn_type : LLVMTypeRef) : Option FunctionType :=
  match fn_type with
  | none => none
  | some t => some ⟨t⟩

/-- The wrapper over one foreign integer-type handle (src/types.rs, struct
IntType). -/
structure IntType where
  int_type : TypeObj

/-- IntType::new (src/types.rs lines 241-247): asserts non-null, wraps. -/
def IntType.new (int_type : LLVMTypeRef) : Option IntType :=
  match int_type with
  | none => none
  | some t => some ⟨t⟩

/-- The wrapper over one foreign value handle (the Value collaborator).
Modelled from the spec: Value wraps one handle, minted by a type-directed
constructor, with the same assert-non-null construction rule (spec section 7). -/
structure Value where
  value : ValueObj

/-- Modelled from the spec: Value::new follows the assert-non-null-at-
construction rule used throughout; the panic is modelled as none. -/
def Value.new (value : LLVMValueRef) : Option Value :=
  match value with
  | none => none
  | some v => some ⟨v⟩

/-- Modelled from the spec: the Context collaborator wraps a foreign context
handle, identified here by its context id. -/
structure Context where
  context : Nat

/-- Modelled from the spec: Context::new wraps the raw context handle. -/
def Context.new (context : Nat) : Context := ⟨context⟩

/-- Modelled from the spec: ContextRef is the weak back-reference to an owning
Context returned by get_context. -/
structure ContextRef where
  context : Context

/-- Modelled from the spec: ContextRef::new wraps a Context. -/
def ContextRef.new (context : Context) : ContextRef := ⟨context⟩

/-- Type::ptr_type (src/types.rs lines 35-41): forwards to LLVMPointerType and
wraps through the checked constructor. -/
def Ty.ptr_type (self : Ty) (address_space : Nat) : Option Ty :=
  Ty.new (LLVMPointerType self.type_ address_space)

/-- Type::fn_type (src/types.rs lines 44-56): converts the wrapper slice to a
raw handle slice (the bulk conversion at the FFI boundary, modelled as the
projection of each wrapper's single handle field), passes its pointer and its
length as the count, converts the Rust bool to a C int, and wraps the result
through the checked constructor. -/
def Ty.fn_type (self : Ty) (param_types : List Ty) (is_var_args : Bool) :
    Option FunctionType :=
  let raw_types : List TypeObj := param_types.map Ty.type_
  FunctionType.new
    (LLVMFunctionType self.type_ raw_types raw_types.length (if is_var_args then 1 else 0))

/-- Type::array_type (src/types.rs lines 59-65): forwards to LLVMArrayType
and wraps through the checked constructor. -/
def Ty.array_type (self : Ty) (size : Nat) : Option Ty :=
  Ty.new (LLVMArrayType self.type_ size)

/-- Type::const_int (src/types.rs lines 68-74): forwards to LLVMConstInt with
the bool converted to a C int, and wraps through Value::new. -/
def Ty.const_int (self : Ty) (value : Nat) (sign_extend : Bool) : Option Value :=
  Value.new (LLVMConstInt self.type_ value (if sign_extend then 1 else 0))

/-- Type::get_type_at_struct_index (src/types.rs lines 115-126): forwards to
LLVMStructGetTypeAtIndex; a null result becomes the explicit absence None,
and a non-null result is wrapped through the checked constructor. -/
def Ty.get_type_at_struct_index (self : Ty) (index : Nat) : Option Ty :=
  match LLVMStructGetTypeAtIndex self.type_ index with
  | none => none
  | some t => Ty.new (some t)

/-- Type::get_context (src/types.rs lines 157-167): forwards to
LLVMGetTypeContext and wraps the always-attributed context; the return type is
not optional. -/
def Ty.get_context (self : Ty) : ContextRef :=
  ContextRef.new (Context.new (LLVMGetTypeContext self.type_))

/-- Type::is_sized (src/types.rs lines 170-174): forwards to LLVMTypeIsSized
and compares the C boolean with 1. -/
def Ty.is_sized (self : Ty) : Bool :=
  LLVMTypeIsSized self.type_ == 1

/-- FunctionType::is_var_arg (src/types.rs lines 200-204): forwards to
LLVMIsFunctionVarArg and tests the C boolean against 0. -/
def FunctionType.is_var_arg (self : FunctionType) : Bool :=
  LLVMIsFunctionVarArg self.fn_type != 0

/-- FunctionType::count_param_types (src/types.rs lines 219-223): forwards to
LLVMCountParamTypes. -/
def FunctionType.count_param_types (self : FunctionType) : Nat :=
  LLVMCountParamTypes self.fn_type

/-- mem::uninitialized() as used in get_param_types: a pointer value that
refers to no allocation (no buffer was allocated before the foreign call). -/
def uninitialized : Option (List TypeObj) := none

/-- FunctionType::get_param_types (src/types.rs lines 208-217): queries the
count, then passes an uninitialized pointer as the engine's output buffer,
and reinterprets count elements read back from that pointer as the result
vector of wrappers. Because no buffer is allocated, the foreign write has no
defined result (see LLVMGetParamTypes), and neither has the vector built from
it, so the model yields none. -/
def FunctionType.get_param_types (self : FunctionType) : Option (List Ty) :=
  let count := self.count_param_types
  let raw_vec := uninitialized
  match LLVMGetParamTypes self.fn_type raw_vec with
  | none => none
  | some written => some ((written.take count).map Ty.mk)

/-- IntType::bool_type (src/types.rs lines 249-255): forwards to LLVMInt1Type
(a context-free entry point of the engine) and wraps. -/
def IntType.bool_type : Option IntType :=
  IntType.new LLVMInt1Type

/-- IntType::i8_type (src/types.rs lines 257-263). -/
def IntType.i8_type : Option IntType :=
  IntType.new LLVMInt8Type

/-- IntType::i16_type (src/types.rs lines 265-271). -/
def IntType.i16_type : Option IntType :=
  IntType.new LLVMInt16Type

/-- IntType::i32_type (src/types.rs lines 273-279). -/
def IntType.i32_type : Option IntType :=
  IntType.new LLVMInt32Type

/-- IntType::i64_type (src/types.rs lines 281-287). -/
def IntType.i64_type : Option IntType :=
  IntType.new LLVMInt64Type

/-- IntType::i128_type (src/types.rs lines 289-298): implemented by calling
the arbitrary-width entry point LLVMIntType with 128. -/
def IntType.i128_type : Option IntType :=
  IntType.new (LLVMIntType 128)

/-- IntType::custom_width_int_type (src/types.rs lines 300-306): forwards to
LLVMIntType with the requested width. -/
def IntType.custom_width_int_type (bits : Nat) : Option IntType :=
  IntType.new (LLVMIntType bits)

/-- Modelled from the spec: the engine's store of interned type objects. Each
minted object lives at an address (the referent's identity); handles returned
by the minting entry points are these addresses. -/
structure EngineState where
  nextAddr : Nat
  heap : List (Nat × TypeObj)

/-- Modelled from the spec: interning inside the foreign engine (spec section
3: primitive types are singletons per context; re-requesting never mints a
duplicate). A request for an object already in the store returns its existing
address and leaves the store untouched; otherwise the object is minted at a
fresh address. -/
def intern (s : EngineState) (obj : TypeObj) : EngineState × Nat :=
  match s.heap.find? (fun p => TypeObj.beq p.2 obj) with
  | some p => (s, p.1)
  | none => (⟨s.nextAddr + 1, (s.nextAddr, obj) :: s.heap⟩, s.nextAddr)

/-- Modelled from the spec: the address-level (stateful) view of the
arbitrary-width integer minting entry point LLVMIntType: it interns the
requested width's integer type in the process-global context and returns the
referent's address. The fixed-width entry points LLVMInt1Type, LLVMInt8Type,
..., used by the IntType constructors, are its instances at widths 1, 8, 16,
32, 64 (and i128_type requests width 128). -/
def LLVMIntTypeS (s : EngineState) (num_bits : Nat) : EngineState × Nat :=
  intern s (.int globalContext num_bits)

mutual

/-- Structural equality of type descriptions is reflexive. -/
theorem TypeObj.beq_refl : (t : TypeObj) → TypeObj.beq t t = true
  | .int c b => by simp [TypeObj.beq]
  | .ptr e a => by simp [TypeObj.beq, TypeObj.beq_refl e]
  | .arr e s => by simp [TypeObj.beq, TypeObj.beq_refl e]
  | .fn r ps v => by simp [TypeObj.beq, TypeObj.beq_refl r, TypeObj.beqList_refl ps]
  | .strct c fs => by simp [TypeObj.beq, TypeObj.beqList_refl fs]

/-- Pointwise structural equality of lists of type descriptions is reflexive. -/
theorem TypeObj.beqList_refl : (ts : List TypeObj) → TypeObj.beqList ts ts = true
  | [] => by simp [TypeObj.beqList]
  | t :: ts => by simp [TypeObj.beqList, TypeObj.beq_refl t, TypeObj.beqList_refl ts]

end

/-- Interning is idempotent: once an object has been requested, requesting it
again returns the very same address and leaves the store unchanged. -/
theorem intern_idem (s : EngineState) (obj : TypeObj) :
    intern (intern s obj).1 obj = intern s obj := by
  cases h : List.find? (fun p => TypeObj.beq p.2 obj) s.heap with
  | some p =>
      have h1 : intern s obj = (s, p.1) := by simp [intern, h]
      rw [h1]
      exact h1
  | none =>
      have h1 : intern s obj =
          (⟨s.nextAddr + 1, (s.nextAddr, obj) :: s.heap⟩, s.nextAddr) := by
        simp [intern, h]
      rw [h1]
      simp [intern, List.find?_cons_of_pos, TypeObj.beq_refl]

/-- Claim C1: the checked constructors Type::new, FunctionType::new and
IntType::new succeed on every non-null handle, yielding a wrapper holding
exactly that handle, and terminate fatally (modelled as none: no usable
wrapper) on the null handle; hence every live wrapper's handle is non-null. -/
theorem claim_C1 :
    (∀ t : TypeObj,
      Ty.new (some t) = some ⟨t⟩ ∧
      FunctionType.new (some t) = some ⟨t⟩ ∧
      IntType.new (some t) = some ⟨t⟩) ∧
    (Ty.new none = none ∧ FunctionType.new none = none ∧ IntType.new none = none) :=
  ⟨fun _ => ⟨rfl, rfl, rfl⟩, rfl, rfl, rfl⟩

/-- Claim C2 (code bug, evaluated at the failing input): building a function
type from the 8-bit return type and the two-element 8-bit parameter list (the
repository's own test input) succeeds, count_param_types reports 2 and
is_var_arg reports false as the claim says, but get_param_types has no defined
result: the code hands the engine an uninitialized pointer instead of a
count-sized caller-allocated output buffer, so it does not return the
parameter list [P1, P2]. -/
theorem claim_C2 :
    ∃ f,
      (Ty.mk (TypeObj.int globalContext 8)).fn_type
        [Ty.mk (TypeObj.int globalContext 8), Ty.mk (TypeObj.int globalContext 8)]
        false = some f ∧
      f.count_param_types = 2 ∧
      f.is_var_arg = false ∧
      f.get_param_types = none :=
  ⟨⟨.fn (.int globalContext 8) [.int globalContext 8, .int globalContext 8] false⟩,
    rfl, rfl, rfl, rfl⟩

/-- Claim C3: for any engine store and any width, requesting the W-bit integer
type a second time returns the very same address (the same underlying
referent, not a distinguishable duplicate) and leaves the store unchanged.
The IntType constructors are instances of this entry point at widths 1, 8,
16, 32, 64, 128 and the caller-chosen width. -/
theorem claim_C3 (s : EngineState) (w : Nat) :
    LLVMIntTypeS (LLVMIntTypeS s w).1 w = LLVMIntTypeS s w ∧
    (LLVMIntTypeS (LLVMIntTypeS s w).1 w).2 = (LLVMIntTypeS s w).2 := by
  have h : LLVMIntTypeS (LLVMIntTypeS s w).1 w = LLVMIntTypeS s w :=
    intern_idem s (TypeObj.int globalContext w)
  exact ⟨h, congrArg Prod.snd h⟩

/-- Claim C4: get_type_at_struct_index returns Some wrapping the (non-null)
field type whenever the receiver is a struct and the index is within its
field count, and the explicit absence result none — never a fatal failure —
exactly in the cases where the engine yields a null result: a non-struct
receiver, or an index beyond the field count. -/
theorem claim_C4 (t : Ty) (i : Nat) :
    (∀ c fields, t.type_ = TypeObj.strct c fields → i < fields.length →
      ∃ ft, fields[i]? = some ft ∧ t.get_type_at_struct_index i = some ⟨ft⟩) ∧
    ((∀ c fields, t.type_ = TypeObj.strct c fields → fields.length ≤ i) →
      t.get_type_at_struct_index i = none) := by
  obtain ⟨tt⟩ := t
  constructor
  · intro c fields hEq hlt
    simp only at hEq
    subst hEq
    refine ⟨fields[i], List.getElem?_eq_getElem hlt, ?_⟩
    simp [Ty.get_type_at_struct_index, LLVMStructGetTypeAtIndex, Ty.new,
      List.getElem?_eq_getElem hlt]
  · intro hle
    cases tt with
    | strct c fields =>
        have hlen : fields.length ≤ i := hle c fields rfl
        simp [Ty.get_type_at_struct_index, LLVMStructGetTypeAtIndex,
          List.getElem?_eq_none hlen]
    | int c b => simp [Ty.get_type_at_struct_index, LLVMStructGetTypeAtIndex]
    | ptr e a => simp [Ty.get_type_at_struct_index, LLVMStructGetTypeAtIndex]
    | arr e sz => simp [Ty.get_type_at_struct_index, LLVMStructGetTypeAtIndex]
    | fn r ps v => simp [Ty.get_type_at_struct_index, LLVMStructGetTypeAtIndex]

/-- Claim C4, instantiated: on a two-field struct, index 0 yields the first
field, index 5 yields none, and on a plain integer type every index yields
none. -/
theorem claim_C4_witness :
    (∃ ft, ([TypeObj.int 0 8, TypeObj.int 0 16] : List TypeObj)[0]? = some ft ∧
      (Ty.mk (TypeObj.strct 0 [TypeObj.int 0 8, TypeObj.int 0 16])).get_type_at_struct_index 0 =
        some ⟨ft⟩) ∧
    (Ty.mk (TypeObj.strct 0 [TypeObj.int 0 8, TypeObj.int 0 16])).get_type_at_struct_index 5 =
      none ∧
    (Ty.mk (TypeObj.int 0 8)).get_type_at_struct_index 3 = none := by
  refine ⟨(claim_C4 ⟨.strct 0 [.int 0 8, .int 0 16]⟩ 0).1 0 [.int 0 8, .int 0 16]
      rfl (by decide),
    (claim_C4 ⟨.strct 0 [.int 0 8, .int 0 16]⟩ 5).2 ?_,
    (claim_C4 ⟨.int 0 8⟩ 3).2 ?_⟩
  · intro c fields h
    injection h with h1 h2
    subst h2
    decide
  · intro c fields h
    exact absurd h (by simp)

/-- Claim C5: on an integer type whose width is at most 64 bits, const_int
stores the input truncated to the bit width, so the constant built from a
value equals the constant built from that value reduced modulo 2 to the
width; in particular, on the 8-bit type, 300 and 300 mod 256 yield the same
stored constant (see the witness). -/
theorem claim_C5 (c value : Nat) (sx : Bool) (bits : Nat) (h : bits ≤ 64) :
    (Ty.mk (TypeObj.int c bits)).const_int value sx =
      (Ty.mk (TypeObj.int c bits)).const_int (value % 2 ^ bits) sx := by
  have hdvd : (2 : Nat) ^ bits ∣ 2 ^ 64 := pow_dvd_pow 2 h
  have hlt : value % 2 ^ bits < 2 ^ 64 :=
    lt_of_lt_of_le (Nat.mod_lt _ (pow_pos (by norm_num) bits))
      (Nat.pow_le_pow_right (by norm_num) h)
  simp only [Ty.const_int, LLVMConstInt, storedIntValue, if_pos h]
  rw [Nat.mod_mod_of_dvd value hdvd, Nat.mod_eq_of_lt hlt,
    Nat.mod_mod_of_dvd value (dvd_refl _)]

/-- Claim C5, instantiated at the spec's own example: on the 8-bit type, the
constant built from 300 equals the constant built from 300 mod 256. -/
theorem claim_C5_witness :
    (Ty.mk (TypeObj.int 0 8)).const_int 300 false =
      (Ty.mk (TypeObj.int 0 8)).const_int (300 % 2 ^ 8) false :=
  claim_C5 0 300 false 8 (by decide)

/-- Claim C6: a type derived by ptr_type, array_type or fn_type reports, via
the total (non-optional) get_context, the same owning context as the
component type it was derived from. FunctionType itself exposes no
get_context, so for the function case the derived handle is read through the
shared handle representation. -/
theorem claim_C6 (t : Ty) (address_space size : Nat) (params : List Ty) (v : Bool) :
    (∀ d, t.ptr_type address_space = some d → d.get_context = t.get_context) ∧
    (∀ d, t.array_type size = some d → d.get_context = t.get_context) ∧
    (∀ f, t.fn_type params v = some f →
      (Ty.mk f.fn_type).get_context = t.get_context) := by
  refine ⟨?_, ?_, ?_⟩
  · intro d hd
    simp only [Ty.ptr_type, LLVMPointerType, Ty.new, Option.some.injEq] at hd
    subst hd
    simp [Ty.get_context, LLVMGetTypeContext, TypeObj.ctxOf]
  · intro d hd
    simp only [Ty.array_type, LLVMArrayType, Ty.new, Option.some.injEq] at hd
    subst hd
    simp [Ty.get_context, LLVMGetTypeContext, TypeObj.ctxOf]
  · intro f hf
    simp only [Ty.fn_type, LLVMFunctionType, FunctionType.new, Option.some.injEq] at hf
    subst hf
    simp [Ty.get_context, LLVMGetTypeContext, TypeObj.ctxOf]

/-- Claim C6, instantiated: pointer-of, array-of and zero-arity function-of
the 8-bit integer type owned by context 5 all report context 5, the context
of the component type. -/
theorem claim_C6_witness :
    (Ty.mk (TypeObj.ptr (TypeObj.int 5 8) 0)).get_context =
      (Ty.mk (TypeObj.int 5 8)).get_context ∧
    (Ty.mk (TypeObj.arr (TypeObj.int 5 8) 0)).get_context =
      (Ty.mk (TypeObj.int 5 8)).get_context ∧
    (Ty.mk (TypeObj.fn (TypeObj.int 5 8) [] false)).get_context =
      (Ty.mk (TypeObj.int 5 8)).get_context :=
  ⟨(claim_C6 ⟨.int 5 8⟩ 0 0 [] false).1 ⟨.ptr (.int 5 8) 0⟩ rfl,
   (claim_C6 ⟨.int 5 8⟩ 0 0 [] false).2.1 ⟨.arr (.int 5 8) 0⟩ rfl,
   (claim_C6 ⟨.int 5 8⟩ 0 0 [] false).2.2 ⟨.fn (.int 5 8) [] false⟩ rfl⟩

/-- Claim C7: building a function type from an empty parameter list succeeds
and reports zero parameters, and building an array type of size 0 over a
sized element type succeeds and still reports is_sized true. -/
theorem claim_C7 (t : Ty) (v : Bool) (h : t.is_sized = true) :
    (∃ f, t.fn_type [] v = some f ∧ f.count_param_types = 0) ∧
    (∃ a, t.array_type 0 = some a ∧ a.is_sized = true) := by
  have h' : t.type_.isSized = true := by
    cases hc : t.type_.isSized with
    | true => rfl
    | false => simp [Ty.is_sized, LLVMTypeIsSized, hc] at h
  constructor
  · exact ⟨⟨.fn t.type_ [] ((if v then (1 : Nat) else 0) != 0)⟩, rfl, rfl⟩
  · refine ⟨⟨.arr t.type_ 0⟩, rfl, ?_⟩
    simp [Ty.is_sized, LLVMTypeIsSized, TypeObj.isSized, h']

/-- Claim C7, instantiated at the 8-bit integer type with the variadic flag
unset. -/
theorem claim_C7_witness :
    (∃ f, (Ty.mk (TypeObj.int 0 8)).fn_type [] false = some f ∧
      f.count_param_types = 0) ∧
    (∃ a, (Ty.mk (TypeObj.int 0 8)).array_type 0 = some a ∧ a.is_sized = true) :=
  claim_C7 ⟨.int 0 8⟩ false (by simp [Ty.is_sized, LLVMTypeIsSized, TypeObj.isSized])

/-- Claim C9: every IntType factory constructor takes no Context parameter
(visible from each constructor's signature below) and mints its type in the
process-global context: the produced type's owning context is globalContext,
whatever contexts a caller may have created. -/
theorem claim_C9 :
    IntType.bool_type.map (fun it => it.int_type.ctxOf) = some globalContext ∧
    IntType.i8_type.map (fun it => it.int_type.ctxOf) = some globalContext ∧
    IntType.i16_type.map (fun it => it.int_type.ctxOf) = some globalContext ∧
    IntType.i32_type.map (fun it => it.int_type.ctxOf) = some globalContext ∧
    IntType.i64_type.map (fun it => it.int_type.ctxOf) = some globalContext ∧
    IntType.i128_type.map (fun it => it.int_type.ctxOf) = some globalContext ∧
    ∀ bits, (IntType.custom_width_int_type bits).map (fun it => it.int_type.ctxOf) =
      some globalContext :=
  ⟨rfl, rfl, rfl, rfl, rfl, rfl, fun _ => rfl⟩

/-- Claim C10: i128_type and custom_width_int_type applied to 128 are the
same construction: both request the 128-bit integer type through the
arbitrary-width entry point, so they produce the identical type. -/
theorem claim_C10 : IntType.i128_type = IntType.custom_width_int_type 128 := rfl
